import Mathlib

/-!
Shallow embedding of the core of the RAG resume-analyzer service:
document loading (`services/document_service.py`), Pinecone index
lifecycle management, and the retrieve-then-generate chat flow
(`services/chat_service.py`, `app.py`).  External collaborators
(file system, format-specific readers, the Embedding Provider, the
Language Model Provider, the Vector Index) are modelled as explicit
oracles / state, and the externally visible calls the code makes are
recorded as traces so that claims about absence of calls and about
state preservation can be stated.
-/

namespace RagAgent

/-- A loaded document or chunk as produced by the LangChain loaders:
raw text (`page_content`) plus a metadata mapping. -/
structure Doc where
  page_content : String
  metadata : List (String × String)
  deriving DecidableEq, Repr

/-- Log records emitted through `logger.warning` / `logger.error` /
`logger.info` in the document service. -/
inductive LogMsg where
  | warning (msg : String)
  | error (msg : String)
  | info (msg : String)
  deriving DecidableEq, Repr

/-- Index of the last occurrence of `c` in `l` (Python `str.rfind`),
`none` when `c` does not occur. -/
def lastIndexOf (l : List Char) (c : Char) : Option Nat :=
  ((List.range l.length).filter (fun i => l.get? i == some c)).getLast?

/-- os.path.splitext(path)[1]: the extension including its dot, taken from
the last dot of the final path component; a basename whose characters
before that dot are all dots has no extension. -/
def splitext_ext (path : String) : String :=
  let p := path.toList
  let sepIndex : Int := match lastIndexOf p '/' with
    | some i => (i : Int)
    | none => -1
  let dotIndex : Int := match lastIndexOf p '.' with
    | some i => (i : Int)
    | none => -1
  if sepIndex < dotIndex then
    let start : Nat := (sepIndex + 1).toNat
    if (List.range' start (dotIndex.toNat - start)).any
        (fun j => p.get? j != some '.') then
      String.mk (p.drop dotIndex.toNat)
    else ""
  else ""

/-- The keys of the loader dispatch table in `_load_single_file`. -/
def supported_extensions : List String := [".txt", ".pdf", ".docx"]

/-- The lowered extension `os.path.splitext(file_path)[1].lower()` used for
the loader dispatch. -/
def dispatch_ext (file_path : String) : String :=
  String.mk ((splitext_ext file_path).toList.map Char.toLower)

/-- The body of the try-block of `_load_single_file`: dispatch on the lowered
extension; an unsupported extension logs a warning and yields no documents;
a supported extension runs the format-specific reader (modelled as the
`read` oracle), whose failure is an exception escaping the block. -/
def load_single_file_try (read : String → String → Except String (List Doc))
    (file_path : String) : Except String (List Doc × List LogMsg) :=
  let ext := dispatch_ext file_path
  if ext ∉ supported_extensions then
    .ok ([], [.warning ("Unsupported file type: " ++ ext)])
  else
    match read file_path ext with
    | .ok documents =>
        .ok (documents,
          [.info ("Loaded " ++ toString documents.length ++
            " documents from " ++ file_path)])
    | .error e => .error e

/-- `_load_single_file`: the try-body with the surrounding except-clause,
which converts any reader exception into an error log and an empty result,
so the function itself always returns normally. -/
def load_single_file (read : String → String → Except String (List Doc))
    (file_path : String) : List Doc × List LogMsg :=
  match load_single_file_try read file_path with
  | .ok r => r
  | .error e => ([], [.error ("Error loading " ++ file_path ++ ": " ++ e)])

/-- The ambient file system as the document service observes it:
`os.path.isfile`, `os.path.isdir`, and `glob.glob(os.path.join(path, "**",
pattern), recursive=True)`. -/
structure FileSystem where
  isFile : String → Bool
  isDir : String → Bool
  glob : String → String → List String

/-- The files discovered by the directory branch of `load_documents`: the
recursive glob results for the three supported patterns, in loop order. -/
def dir_files (fs : FileSystem) (path : String) : List String :=
  (["*.txt", "*.pdf", "*.docx"].map (fun pat => fs.glob path pat)).flatten

/-- `load_documents`: a single file is loaded directly; a directory is
walked pattern by pattern, each discovered file loaded and its documents
appended; any other path yields the empty result. -/
def load_documents (fs : FileSystem)
    (read : String → String → Except String (List Doc)) (path : String) :
    List Doc × List LogMsg :=
  if fs.isFile path then
    load_single_file read path
  else if fs.isDir path then
    (dir_files fs path).foldl
      (fun acc file =>
        (acc.1 ++ (load_single_file read file).1,
         acc.2 ++ (load_single_file read file).2))
      ([], [])
  else ([], [])

theorem foldl_append_pair {α β γ : Type} (g : α → List β × List γ) :
    ∀ (l : List α) (acc : List β × List γ),
      l.foldl (fun acc a => (acc.1 ++ (g a).1, acc.2 ++ (g a).2)) acc =
        (acc.1 ++ (l.map (fun a => (g a).1)).flatten,
         acc.2 ++ (l.map (fun a => (g a).2)).flatten) := by
  intro l
  induction l with
  | nil => intro acc; simp
  | cons a t ih =>
      intro acc
      simp only [List.foldl_cons, List.map_cons, List.flatten]
      rw [ih]
      simp [List.append_assoc]

/-- Externally visible calls of the ingestion path: Pinecone control-plane
operations, the `time.sleep` waits, and the bulk embed-and-upsert performed
by `PineconeVectorStore.from_documents`. -/
inductive IngestCall where
  | listIndexes
  | describeIdx (name : String)
  | createIdx (name : String) (dimension : Nat)
  | deleteIdx (name : String)
  | sleepSecs (seconds : Nat)
  | embedUpsert (count : Nat)
  deriving DecidableEq, Repr

/-- Pinecone control-plane state: the existing indexes, each paired with its
dimension. -/
abbrev PineconeState := List (String × Nat)

/-- pc.create_index(name, dimension, ...): the new index becomes visible. -/
def pc_create_index (st : PineconeState) (name : String) (dimension : Nat) :
    PineconeState :=
  (name, dimension) :: st

/-- pc.delete_index(name): the index disappears from the control plane. -/
def pc_delete_index (st : PineconeState) (name : String) : PineconeState :=
  st.filter (fun p => p.1 != name)

/-- pc.describe_index(name).dimension, `none` when no such index exists. -/
def pc_describe_dimension (st : PineconeState) (name : String) : Option Nat :=
  st.lookup name

/-- `_ensure_index_exists`: create the index with dimension 1536 when it is
absent; when it exists with a dimension other than 1536, delete and recreate
it; otherwise leave it untouched.  The returned trace records the calls made.
In the existing-index branch the describe call succeeds, since `index_name`
is among the listed indexes. -/
def ensure_index_exists (st : PineconeState) (index_name : String) :
    PineconeState × List IngestCall :=
  let existing_indexes := st.map Prod.fst
  if index_name ∉ existing_indexes then
    (pc_create_index st index_name 1536,
     [.listIndexes, .createIdx index_name 1536, .sleepSecs 10])
  else
    let dimension := (pc_describe_dimension st index_name).getD 0
    if dimension ≠ 1536 then
      (pc_create_index (pc_delete_index st index_name) index_name 1536,
       [.listIndexes, .describeIdx index_name, .deleteIdx index_name,
        .sleepSecs 5, .createIdx index_name 1536, .sleepSecs 10])
    else
      (st, [.listIndexes, .describeIdx index_name])

/-- `create_vector_store`: an empty document list returns `None` before any
external work; otherwise the documents are chunked (the
RecursiveCharacterTextSplitter is the external `split_documents` oracle),
the index is ensured, and `PineconeVectorStore.from_documents` embeds and
upserts the chunks (the `embed_upsert` oracle); a failure of that call is
caught by the surrounding except-clause, which returns `None`. -/
def create_vector_store
    (split_documents : List Doc → List Doc)
    (embed_upsert : List Doc → PineconeState → Except String PineconeState)
    (index_name : String) (st : PineconeState) (documents : List Doc) :
    Option (List Doc) × PineconeState × List IngestCall :=
  if documents.isEmpty then (none, st, [])
  else
    let chunks := split_documents documents
    let ensured := ensure_index_exists st index_name
    match embed_upsert chunks ensured.1 with
    | .ok st2 => (some chunks, st2, ensured.2 ++ [.embedUpsert chunks.length])
    | .error _ => (none, ensured.1, ensured.2 ++ [.embedUpsert chunks.length])

theorem lookup_isSome_of_mem_keys {st : PineconeState} {name : String}
    (h : name ∈ st.map Prod.fst) : (st.lookup name).isSome := by
  induction st with
  | nil => simp at h
  | cons p t ih =>
      rcases p with ⟨k, v⟩
      by_cases hk : name = k
      · subst hk
        simp [List.lookup]
      · simp only [List.map_cons, List.mem_cons] at h
        rcases h with h | h
        · exact absurd h hk
        · simpa [List.lookup, beq_false_of_ne hk] using ih h

theorem lookup_eq_none_of_not_mem_keys {st : PineconeState} {name : String}
    (h : name ∉ st.map Prod.fst) : st.lookup name = none := by
  induction st with
  | nil => rfl
  | cons p t ih =>
      rcases p with ⟨k, v⟩
      simp only [List.map_cons, List.mem_cons, not_or] at h
      simpa [List.lookup, beq_false_of_ne h.1] using ih h.2

/-- Similarity scores reported by the Vector Index (cosine), modelled as
rationals. -/
abbrev Score := ℚ

/-- Ranking relation of the Vector Index: higher score first. -/
def score_ge (a b : Doc × Score) : Prop := b.2 ≤ a.2

instance : DecidableRel score_ge :=
  fun a b => inferInstanceAs (Decidable (b.2 ≤ a.2))

instance : IsTotal (Doc × Score) score_ge :=
  ⟨fun a b => le_total b.2 a.2⟩

instance : IsTrans (Doc × Score) score_ge :=
  ⟨fun _ _ _ hab hbc => le_trans hbc hab⟩

/-- Modelled from the spec: the external Vector Index's native similarity
search `query(vector, k) -> ranked list of (id, score, metadata)` — not part
of this repository.  Every stored chunk is scored against the query by the
abstract similarity function `sim` (Embedding Provider plus cosine), and the
top `k` records are returned ranked by descending similarity. -/
def index_query (sim : Doc → Score) (records : List Doc) (k : Nat) :
    List (Doc × Score) :=
  (List.insertionSort score_ge (records.map (fun d => (d, sim d)))).take k

/-- The retriever built in `process_chat_question` via
vectorstore.as_retriever with search_kwargs k = 5, returning the documents
of the top-5 similarity search results. -/
def get_relevant_documents (sim : String → Doc → Score) (records : List Doc)
    (question : String) : List Doc :=
  (index_query (sim question) records 5).map Prod.fst

/-- Ways the Language Model Provider call can fail. -/
inductive GenFailure where
  | timeout
  | quota
  | malformed
  | other (msg : String)
  deriving DecidableEq, Repr

/-- Failures escaping `process_chat_question`: the ValueError raised when no
vector store handle is available, and any exception from the Language Model
Provider call. -/
inductive ChatError where
  | vector_store_unavailable
  | generation (e : GenFailure)
  deriving DecidableEq, Repr

/-- One element of the `sources` list of a chat response. -/
structure SourceEntry where
  content : String
  metadata : List (String × String)
  deriving DecidableEq, Repr

/-- The value returned by a successful `process_chat_question`. -/
structure ChatResult where
  answer : String
  sources : List SourceEntry
  deriving DecidableEq, Repr

/-- Externally visible calls of the query path: similarity searches against
the Vector Index, mutating index operations (never emitted by the query
path, present so that index-state preservation is expressible), and calls
to the Language Model Provider. -/
inductive ExtCall where
  | indexQuery (question : String)
  | indexUpsert (docs : List Doc)
  | indexDeleteAll
  | llmCall (prompt : String)
  deriving DecidableEq, Repr

/-- Effect of one externally visible call on the Vector Index contents:
similarity searches and language-model calls leave it untouched. -/
def apply_call (st : List Doc) : ExtCall → List Doc
  | .indexQuery _ => st
  | .indexUpsert docs => st ++ docs
  | .indexDeleteAll => []
  | .llmCall _ => st

/-- Effect of a trace of externally visible calls on the Vector Index. -/
def apply_calls (st : List Doc) (calls : List ExtCall) : List Doc :=
  calls.foldl apply_call st

/-- External collaborators of the chat service: the similarity function
behind the retriever, the Language Model Provider, and the markdown-to-HTML
renderer. -/
structure ChatDeps where
  sim : String → Doc → Score
  llm : String → Except GenFailure String
  render : String → String

/-- `_format_docs`: join the page contents with a blank line between
adjacent documents. -/
def format_docs (docs : List Doc) : String :=
  String.intercalate "\n\n" (docs.map (fun doc => doc.page_content))

/-- HR_PROMPT with its two variables filled in: the fixed template of
`chat_service.py` around the context block and the verbatim question. -/
def hr_prompt (context question : String) : String :=
  "You are an expert HR analyst. Analyze the following question using the provided context.\n\nContext: "
    ++ context
    ++ "\n\nQuestion: "
    ++ question
    ++ "\n\nFormat your response in markdown with:\n## Summary\n[Executive summary]\n\n## Key Insights\n- [Key finding 1]\n- [Key finding 2]\n\n## Recommendations\n1. [Recommendation 1]\n2. [Recommendation 2]\n\n## Skills Assessment\n[Skills alignment if relevant]\n\nFocus on HR factors like skills, experience, qualifications, and cultural fit.\n"

/-- The source-content truncation applied per retrieved document when the
sources list is built. -/
def truncate_content (s : String) : String :=
  if s.length > 200 then s.take 200 ++ "..." else s

/-- `process_chat_question`: raise when no vector store handle is available;
otherwise run the RAG chain (retrieve, format the context, fill HR_PROMPT,
call the Language Model once), render the markdown answer to HTML, retrieve
the source documents a second time with the same question, and return the
answer together with the truncated sources.  A failing Language Model call
escapes after the single chain invocation; the paired trace records the
externally visible calls actually made. -/
def process_chat_question (deps : ChatDeps) (question : String)
    (vectorstore : Option (List Doc)) :
    Except ChatError ChatResult × List ExtCall :=
  match vectorstore with
  | none => (.error .vector_store_unavailable, [])
  | some records =>
      let context_docs := get_relevant_documents deps.sim records question
      let prompt := hr_prompt (format_docs context_docs) question
      match deps.llm prompt with
      | .error e =>
          (.error (.generation e), [.indexQuery question, .llmCall prompt])
      | .ok markdown_answer =>
          let html_answer := deps.render markdown_answer
          let source_docs := get_relevant_documents deps.sim records question
          let sources := source_docs.map (fun doc =>
            { content := truncate_content doc.page_content,
              metadata := doc.metadata : SourceEntry })
          (.ok { answer := html_answer, sources := sources },
           [.indexQuery question, .llmCall prompt, .indexQuery question])

/-- Body of an HTTP response of the /chat route. -/
inductive ChatHttpBody where
  | ok (result : ChatResult)
  | err (message : String)
  deriving DecidableEq, Repr

/-- The str(e) rendering of a Language Model failure. -/
def gen_failure_str : GenFailure → String
  | .timeout => "timeout"
  | .quota => "quota exceeded"
  | .malformed => "malformed response"
  | .other msg => msg

/-- The str(e) rendering of an exception escaping `process_chat_question`. -/
def chat_error_str : ChatError → String
  | .vector_store_unavailable => "Vector store not available"
  | .generation e => gen_failure_str e

/-- Python str.strip(): drop whitespace from both ends. -/
def py_strip (s : String) : String :=
  String.mk
    (((s.toList.dropWhile Char.isWhitespace).reverse.dropWhile
        Char.isWhitespace).reverse)

/-- The /chat route of `app.py`: reject a blank question with status 400,
reject a missing vector store with status 400 and a distinct message, and
otherwise run `process_chat_question`, turning a raised error into a status
500 response. -/
def chat (deps : ChatDeps) (store : Option (List Doc))
    (rawQuestion : String) : Nat × ChatHttpBody :=
  let question := py_strip rawQuestion
  if question = "" then (400, .err "No question provided")
  else
    match store with
    | none => (400, .err "Vector store not available. Please update first.")
    | some records =>
        match process_chat_question deps question (some records) with
        | (.ok r, _) => (200, .ok r)
        | (.error e, _) => (500, .err ("Error: " ++ chat_error_str e))

/-- A sample resume document used by concrete witnesses. -/
def demoDoc : Doc :=
  { page_content := "Skills: Python, JavaScript, React",
    metadata := [("source", "cv.txt")] }

/-- C1: for every call to `_ensure_index_exists`, the index afterwards
reports dimension 1536 (the Embedding Provider dimension of the reference
deployment); and whenever the index already existed with a different
dimension, the call deleted and recreated it. -/
theorem ensure_index_exists_dimension (st : PineconeState)
    (index_name : String) :
    pc_describe_dimension (ensure_index_exists st index_name).1 index_name
      = some 1536
    ∧ (∀ d, pc_describe_dimension st index_name = some d → d ≠ 1536 →
        IngestCall.deleteIdx index_name ∈ (ensure_index_exists st index_name).2
        ∧ IngestCall.createIdx index_name 1536
            ∈ (ensure_index_exists st index_name).2) := by
  constructor
  · by_cases hmem : index_name ∈ st.map Prod.fst
    · have hs := lookup_isSome_of_mem_keys hmem
      rcases Option.isSome_iff_exists.mp hs with ⟨d, hd⟩
      by_cases hdim : d = 1536
      · subst hdim
        simp [ensure_index_exists, hmem, pc_describe_dimension, hd]
      · simp [ensure_index_exists, hmem, pc_describe_dimension, hd, hdim,
          pc_create_index, List.lookup]
    · simp [ensure_index_exists, hmem, pc_describe_dimension,
        pc_create_index, List.lookup]
  · intro d hd hdim
    have hmem : index_name ∈ st.map Prod.fst := by
      by_contra hmem
      rw [pc_describe_dimension, lookup_eq_none_of_not_mem_keys hmem] at hd
      exact Option.noConfusion hd
    rw [pc_describe_dimension] at hd
    constructor <;>
      simp [ensure_index_exists, hmem, pc_describe_dimension, hd, hdim]

/-- Witness for C1 at a concrete state: an index existing with dimension 768
is deleted, recreated, and afterwards reports dimension 1536. -/
theorem ensure_index_exists_dimension_witness :
    pc_describe_dimension
        (ensure_index_exists [("resume-index", 768)] "resume-index").1
        "resume-index" = some 1536
    ∧ (IngestCall.deleteIdx "resume-index"
          ∈ (ensure_index_exists [("resume-index", 768)] "resume-index").2
       ∧ IngestCall.createIdx "resume-index" 1536
          ∈ (ensure_index_exists [("resume-index", 768)] "resume-index").2) :=
  ⟨(ensure_index_exists_dimension [("resume-index", 768)] "resume-index").1,
   (ensure_index_exists_dimension [("resume-index", 768)] "resume-index").2
     768 rfl (by decide)⟩

/-- C4 counterexample: with an empty document list `create_vector_store`
returns `None` — the very value its exception path produces — and not the
`Some`-shaped value a successful non-empty ingestion yields, so the caller
sees no distinct success. -/
theorem create_vector_store_empty_counterexample :
    (create_vector_store (fun docs => docs) (fun _ st => .ok st)
        "resume-index" [] []).1 = none
    ∧ (create_vector_store (fun docs => docs) (fun _ st => .ok st)
        "resume-index" [] [demoDoc]).1 = some [demoDoc]
    ∧ (create_vector_store (fun docs => docs)
        (fun _ _ => .error "ConnectionError")
        "resume-index" [] [demoDoc]).1 = none :=
  ⟨rfl, rfl, rfl⟩

/-- C4 (amended): an empty document list makes `create_vector_store` return
`None` immediately with unchanged index state and an empty call trace — no
call to the Embedding Provider or the Vector Index happens and nothing can
fail, whatever the splitter and the network behave like. -/
theorem create_vector_store_empty_trivial
    (split_documents : List Doc → List Doc)
    (embed_upsert : List Doc → PineconeState → Except String PineconeState)
    (index_name : String) (st : PineconeState) :
    create_vector_store split_documents embed_upsert index_name st []
      = (none, st, []) := rfl

/-- C10: a path naming neither an existing file nor an existing directory
makes `load_documents` return the empty result with no log records; the
result is the same for every reader oracle, so no file read happens. -/
theorem load_documents_no_such_path (fs : FileSystem)
    (read : String → String → Except String (List Doc)) (path : String)
    (hf : fs.isFile path = false) (hd : fs.isDir path = false) :
    load_documents fs read path = ([], []) := by
  simp [load_documents, hf, hd]

/-- A file system where no path exists, for the C10 witness. -/
def emptyFS : FileSystem :=
  { isFile := fun _ => false, isDir := fun _ => false, glob := fun _ _ => [] }

/-- Witness for C10 at a concrete missing path and a failing reader. -/
theorem load_documents_no_such_path_witness :
    load_documents emptyFS (fun _ _ => .error "io") "missing.txt" = ([], []) :=
  load_documents_no_such_path emptyFS (fun _ _ => .error "io") "missing.txt"
    rfl rfl

/-- C8: the single-file loader never propagates an error: an unsupported
extension yields an empty result with a warning (not an error) log, a
reader failure is caught and logged as an error with that file contributing
zero documents, and a directory load equals the concatenation of the
independent per-file results, so one failing file never aborts the load. -/
theorem load_single_file_robust
    (read : String → String → Except String (List Doc)) (file_path : String) :
    (dispatch_ext file_path ∉ supported_extensions →
      load_single_file read file_path =
        ([], [.warning ("Unsupported file type: " ++ dispatch_ext file_path)]))
    ∧ (∀ e, dispatch_ext file_path ∈ supported_extensions →
        read file_path (dispatch_ext file_path) = .error e →
        load_single_file read file_path =
          ([], [.error ("Error loading " ++ file_path ++ ": " ++ e)]))
    ∧ (∀ fs : FileSystem, fs.isFile file_path = false →
        fs.isDir file_path = true →
        load_documents fs read file_path =
          (((dir_files fs file_path).map
              (fun f => (load_single_file read f).1)).flatten,
           ((dir_files fs file_path).map
              (fun f => (load_single_file read f).2)).flatten)) := by
  refine ⟨?_, ?_, ?_⟩
  · intro hext
    simp [load_single_file, load_single_file_try, hext]
  · intro e hext hread
    simp [load_single_file, load_single_file_try, hext, hread]
  · intro fs hf hd
    simp only [load_documents, hf, hd, Bool.false_eq_true, if_false, if_true]
    rw [foldl_append_pair (fun file => load_single_file read file)]
    simp

/-- A file system holding one directory with one text file, for the C8
witness. -/
def oneDirFS : FileSystem :=
  { isFile := fun _ => false,
    isDir := fun p => p == "docs",
    glob := fun _ pat => if pat == "*.txt" then ["cv.txt"] else [] }

/-- Witness for C8 at concrete inputs: an unsupported extension only warns,
a failing reader is caught and logged, and a directory load is the
concatenation of per-file results even when every read fails. -/
theorem load_single_file_robust_witness :
    load_single_file (fun _ _ => .error "boom") "cv.xyz" =
      ([], [.warning ("Unsupported file type: " ++ dispatch_ext "cv.xyz")])
    ∧ load_single_file (fun _ _ => .error "boom") "cv.txt" =
      ([], [.error ("Error loading " ++ "cv.txt" ++ ": " ++ "boom")])
    ∧ load_documents oneDirFS (fun _ _ => .error "boom") "docs" =
      (((dir_files oneDirFS "docs").map
          (fun f => (load_single_file (fun _ _ => .error "boom") f).1)).flatten,
       ((dir_files oneDirFS "docs").map
          (fun f => (load_single_file (fun _ _ => .error "boom") f).2)).flatten) :=
  ⟨(load_single_file_robust (fun _ _ => .error "boom") "cv.xyz").1 (by decide),
   (load_single_file_robust (fun _ _ => .error "boom") "cv.txt").2.1 "boom"
     (by decide) rfl,
   (load_single_file_robust (fun _ _ => .error "boom") "docs").2.2 oneDirFS
     rfl rfl⟩

/-- The separator-then-text tail produced while joining strings, the shape
of the accumulator of `String.intercalate.go`. -/
def sep_tail (sep : String) : List String → String
  | [] => ""
  | x :: xs => sep ++ x ++ sep_tail sep xs

theorem intercalate_go_eq (sep : String) :
    ∀ (l : List String) (acc : String),
      String.intercalate.go acc sep l = acc ++ sep_tail sep l := by
  intro l
  induction l with
  | nil =>
      intro acc
      simp [String.intercalate.go, sep_tail]
  | cons x xs ih =>
      intro acc
      rw [String.intercalate.go, ih]
      simp [sep_tail, String.append_assoc]

/-- Specification reading of the context block (C6): the chunk texts in
retriever order, adjacent texts separated by one blank line, nothing else
added or removed. -/
def context_block_spec : List Doc → String
  | [] => ""
  | [doc] => doc.page_content
  | doc :: docs => doc.page_content ++ "\n\n" ++ context_block_spec docs

theorem context_block_spec_cons (d : Doc) (ds : List Doc) :
    context_block_spec (d :: ds)
      = d.page_content ++ sep_tail "\n\n" (ds.map (fun doc => doc.page_content)) := by
  induction ds generalizing d with
  | nil => simp [context_block_spec, sep_tail]
  | cons e es ih =>
      have h3 : context_block_spec (d :: e :: es)
          = d.page_content ++ "\n\n" ++ context_block_spec (e :: es) := rfl
      rw [h3, ih e]
      simp [sep_tail, String.append_assoc]

/-- C6: the context block built by `_format_docs` is exactly the
concatenation of the retrieved chunk texts in order, adjacent texts
separated by a blank line and nothing else. -/
theorem format_docs_eq_context_block_spec (docs : List Doc) :
    format_docs docs = context_block_spec docs := by
  cases docs with
  | nil => rfl
  | cons d ds =>
      rw [context_block_spec_cons]
      show String.intercalate.go d.page_content "\n\n"
          (ds.map (fun doc => doc.page_content))
        = d.page_content ++ sep_tail "\n\n" (ds.map (fun doc => doc.page_content))
      exact intercalate_go_eq "\n\n" _ _

/-- C7: the similarity search behind the retriever returns at most k
records, and its score sequence is non-increasing in the returned order
(spec-modelled: the ranking is the Vector Index's native search, external
to this repository). -/
theorem index_query_ranked (sim : Doc → Score) (records : List Doc)
    (k : Nat) :
    List.Pairwise (fun a b : Score => b ≤ a)
      ((index_query sim records k).map Prod.snd)
    ∧ (index_query sim records k).length ≤ k := by
  constructor
  · have hs : List.Pairwise score_ge
        (List.insertionSort score_ge (records.map (fun d => (d, sim d)))) :=
      List.sorted_insertionSort score_ge _
    have ht : List.Pairwise score_ge (index_query sim records k) :=
      List.Pairwise.sublist (List.take_sublist k _) hs
    exact List.pairwise_map.mpr (ht.imp (fun h => h))
  · rw [index_query]
    exact List.length_take_le k _

/-- C2: when the Language Model Provider call fails, the failure escapes
`process_chat_question` as a generation error, the provider was invoked
exactly once, and the recorded calls leave the Vector Index contents
unchanged. -/
theorem llm_failure_propagates (deps : ChatDeps) (question : String)
    (records : List Doc) (e : GenFailure)
    (h : deps.llm (hr_prompt
        (format_docs (get_relevant_documents deps.sim records question))
        question) = .error e) :
    process_chat_question deps question (some records)
      = (.error (.generation e),
         [.indexQuery question,
          .llmCall (hr_prompt
            (format_docs (get_relevant_documents deps.sim records question))
            question)])
    ∧ (((process_chat_question deps question (some records)).2.filter
          (fun c => match c with | .llmCall _ => true | _ => false)).length
        = 1)
    ∧ apply_calls records
        (process_chat_question deps question (some records)).2 = records := by
  have hmain : process_chat_question deps question (some records)
      = (.error (.generation e),
         [.indexQuery question,
          .llmCall (hr_prompt
            (format_docs (get_relevant_documents deps.sim records question))
            question)]) := by
    simp only [process_chat_question]
    rw [h]
  refine ⟨hmain, ?_, ?_⟩ <;> rw [hmain]
  · rfl
  · rfl

/-- Chat dependencies whose Language Model call always times out, for the
C2 witness. -/
def failDeps : ChatDeps :=
  { sim := fun _ _ => 0,
    llm := fun _ => .error .timeout,
    render := fun s => s }

/-- The record list and question used by the chat witnesses. -/
def demoRecords : List Doc := [demoDoc]

/-- The question used by the chat witnesses. -/
def demoQuestion : String := "What skills does the candidate have?"

/-- Witness for C2 at a concrete timeout. -/
theorem llm_failure_propagates_witness :
    process_chat_question failDeps demoQuestion (some demoRecords)
      = (.error (.generation .timeout),
         [.indexQuery demoQuestion,
          .llmCall (hr_prompt
            (format_docs
              (get_relevant_documents failDeps.sim demoRecords demoQuestion))
            demoQuestion)])
    ∧ (((process_chat_question failDeps demoQuestion (some demoRecords)).2.filter
          (fun c => match c with | .llmCall _ => true | _ => false)).length
        = 1)
    ∧ apply_calls demoRecords
        (process_chat_question failDeps demoQuestion (some demoRecords)).2
      = demoRecords :=
  llm_failure_propagates failDeps demoQuestion demoRecords .timeout rfl

/-- C3: for every successful query, the returned sources are exactly the
retrieved chunks in order, each with its text truncated to 200 characters
plus an ellipsis when the original is longer than 200 characters and
unmodified otherwise, together with that chunk's metadata. -/
theorem sources_truncated (deps : ChatDeps) (question : String)
    (records : List Doc) (res : ChatResult) (tr : List ExtCall)
    (h : process_chat_question deps question (some records) = (.ok res, tr)) :
    res.sources = (get_relevant_documents deps.sim records question).map
      (fun doc =>
        { content :=
            if doc.page_content.length > 200
            then doc.page_content.take 200 ++ "..."
            else doc.page_content,
          metadata := doc.metadata : SourceEntry }) := by
  simp only [process_chat_question] at h
  cases hllm : deps.llm (hr_prompt
      (format_docs (get_relevant_documents deps.sim records question))
      question) with
  | error e =>
      rw [hllm] at h
      simp at h
  | ok md =>
      rw [hllm] at h
      simp only [Prod.mk.injEq, Except.ok.injEq] at h
      obtain ⟨h1, h2⟩ := h
      rw [← h1]
      rfl

/-- Chat dependencies whose Language Model call always answers, for the
C3, C5 and C9 witnesses. -/
def okDeps : ChatDeps :=
  { sim := fun _ _ => 0,
    llm := fun _ => .ok "the answer",
    render := fun s => s }

/-- The prompt the witnesses feed the Language Model. -/
def demoPrompt : String :=
  hr_prompt (format_docs demoRecords) demoQuestion

/-- The chat result of the witnesses. -/
def demoResult : ChatResult :=
  { answer := "the answer",
    sources := [{ content := "Skills: Python, JavaScript, React",
                  metadata := [("source", "cv.txt")] }] }

/-- The call trace of the witnesses. -/
def demoTrace : List ExtCall :=
  [.indexQuery demoQuestion, .llmCall demoPrompt, .indexQuery demoQuestion]

/-- Witness for C3 at a concrete successful query. -/
theorem sources_truncated_witness :
    demoResult.sources
      = (get_relevant_documents okDeps.sim demoRecords demoQuestion).map
          (fun doc =>
            { content :=
                if doc.page_content.length > 200
                then doc.page_content.take 200 ++ "..."
                else doc.page_content,
              metadata := doc.metadata : SourceEntry }) :=
  sources_truncated okDeps demoQuestion demoRecords demoResult demoTrace rfl

/-- C9: a successful query performs two separate retrieval invocations with
the same question (two index queries in the trace); retrieval being a fixed
function of the question and the index contents, the reported sources are
exactly the truncations of the chunks whose text built the context prompt
found in the same trace. -/
theorem sources_match_context (deps : ChatDeps) (question : String)
    (records : List Doc) (res : ChatResult) (tr : List ExtCall)
    (h : process_chat_question deps question (some records) = (.ok res, tr)) :
    (tr.filter
        (fun c => match c with | .indexQuery _ => true | _ => false)).length
      = 2
    ∧ ExtCall.llmCall (hr_prompt
        (format_docs (get_relevant_documents deps.sim records question))
        question) ∈ tr
    ∧ res.sources = (get_relevant_documents deps.sim records question).map
        (fun doc =>
          { content := truncate_content doc.page_content,
            metadata := doc.metadata : SourceEntry }) := by
  simp only [process_chat_question] at h
  cases hllm : deps.llm (hr_prompt
      (format_docs (get_relevant_documents deps.sim records question))
      question) with
  | error e =>
      rw [hllm] at h
      simp at h
  | ok md =>
      rw [hllm] at h
      simp only [Prod.mk.injEq, Except.ok.injEq] at h
      obtain ⟨h1, h2⟩ := h
      refine ⟨?_, ?_, ?_⟩
      · rw [← h2]
        rfl
      · rw [← h2]
        simp
      · rw [← h1]

/-- Witness for C9 at a concrete successful query. -/
theorem sources_match_context_witness :
    ((demoTrace.filter
        (fun c => match c with | .indexQuery _ => true | _ => false)).length
      = 2)
    ∧ ExtCall.llmCall (hr_prompt
        (format_docs (get_relevant_documents okDeps.sim demoRecords
          demoQuestion)) demoQuestion) ∈ demoTrace
    ∧ demoResult.sources
        = (get_relevant_documents okDeps.sim demoRecords demoQuestion).map
            (fun doc =>
              { content := truncate_content doc.page_content,
                metadata := doc.metadata : SourceEntry }) :=
  sources_match_context okDeps demoQuestion demoRecords demoResult demoTrace
    rfl

/-- C5: a query issued while no vector store handle is open fails with the
distinguished unavailable error: `process_chat_question` raises it, and the
/chat route surfaces it as a 400 response with its own message — never a
success and never silently dropped. -/
theorem index_unavailable_fails (deps : ChatDeps) (rawQuestion : String)
    (h : py_strip rawQuestion ≠ "") :
    process_chat_question deps rawQuestion none
      = (.error .vector_store_unavailable, [])
    ∧ chat deps none rawQuestion
        = (400, .err "Vector store not available. Please update first.")
    ∧ (chat deps none rawQuestion).1 ≠ 200 := by
  refine ⟨rfl, ?_, ?_⟩
  · simp [chat, h]
  · simp [chat, h]

/-- Witness for C5 at a concrete question with no open vector store. -/
theorem index_unavailable_fails_witness :
    process_chat_question okDeps demoQuestion none
      = (.error .vector_store_unavailable, [])
    ∧ chat okDeps none demoQuestion
        = (400, .err "Vector store not available. Please update first.")
    ∧ (chat okDeps none demoQuestion).1 ≠ 200 :=
  index_unavailable_fails okDeps demoQuestion (by decide)
